import Mathlib

/-!
Verification of the Daraja payment gateway (src/index.js and src/server.js)
against its natural-language specification.

The JavaScript sources are shallowly embedded below: request handlers become
pure Lean functions, the in-memory `payments` store of server.js becomes an
explicit association list threaded through the operations, and the
nondeterministic inputs of the code (random ids, the current clock) become
explicit parameters.  JSON body fields that the handlers coerce are modelled
by the `JSValue` type together with faithful translations of the JavaScript
coercions the code performs (`Number`, `parseInt`, truthiness).
-/

namespace Daraja

/-- A JSON body value as the handlers see it: absent/null, a number, or a
string.  Numbers are modelled as rationals (the claims involve only values on
which IEEE doubles are exact). -/
inductive JSValue where
  | jnull : JSValue
  | jnum : ℚ → JSValue
  | jstr : String → JSValue
deriving DecidableEq, Repr

/-- JavaScript truthiness test restricted to `JSValue`: `null`, `0` and the
empty string are falsy (`!phone || !amount` in src/index.js line 137). -/
def jsFalsy : JSValue → Bool
  | .jnull => true
  | .jnum q => q = 0
  | .jstr s => s = ""

/-- Value of a digit string, most significant digit first. -/
def digitsToNat (l : List Char) : Nat :=
  l.foldl (fun acc c => acc * 10 + (c.toNat - ('0').toNat)) 0

/-- JavaScript `Number(s)` on a simple decimal string (optional sign, digits,
optional fractional part; the whole string must match; the empty string is 0).
`none` models `NaN`. -/
def strToNumber (s : String) : Option ℚ :=
  if s = "" then some 0 else
  let cs := s.toList
  let sign : ℚ := if cs.head? = some '-' then -1 else 1
  let cs := if cs.head? = some '-' ∨ cs.head? = some '+' then cs.tail else cs
  let ip := cs.takeWhile Char.isDigit
  let rest := cs.dropWhile Char.isDigit
  match rest with
  | [] => if ip = [] then none else some (sign * (digitsToNat ip : ℚ))
  | '.' :: fp =>
      if fp.all Char.isDigit ∧ (ip ≠ [] ∨ fp ≠ []) then
        some (sign * ((digitsToNat ip : ℚ) + (digitsToNat fp : ℚ) / (10 ^ fp.length : ℚ)))
      else none
  | _ => none

/-- JavaScript `Number(v)` on a `JSValue` (`Number(null)` is `0`). -/
def jsToNumber : JSValue → Option ℚ
  | .jnull => some 0
  | .jnum q => some q
  | .jstr s => strToNumber s

/-- Truncation of a rational toward zero, as JavaScript number-to-integer
conversion does for the magnitudes involved here. -/
def ratTrunc (q : ℚ) : Int :=
  if 0 ≤ q then ⌊q⌋ else ⌈q⌉

/-- JavaScript `parseInt` on a string: optional sign, then the longest prefix
of digits; `NaN` (`none`) when no digit is found.  (Leading whitespace
trimming is omitted; no claim involves it.) -/
def strParseInt (s : String) : Option Int :=
  let cs := s.toList
  let sign : Int := if cs.head? = some '-' then -1 else 1
  let cs := if cs.head? = some '-' ∨ cs.head? = some '+' then cs.tail else cs
  let ds := cs.takeWhile Char.isDigit
  if ds = [] then none else some (sign * (digitsToNat ds : Int))

/-- JavaScript `parseInt(v)` on a `JSValue`: numbers are stringified first,
which for the plainly-printed magnitudes used here truncates toward zero;
`parseInt(null)` is `NaN`. -/
def jsParseInt : JSValue → Option Int
  | .jnull => none
  | .jnum q => some (ratTrunc q)
  | .jstr s => strParseInt s

/-- The generic-profile phone regex `/^\+?\d{7,15}$/` of src/server.js
line 36: an optional leading `+` followed by 7 to 15 digits. -/
def genericPhoneTest (s : String) : Bool :=
  let cs := s.toList
  let ds := if cs.head? = some '+' then cs.tail else cs
  ds.all Char.isDigit && decide (7 ≤ ds.length) && decide (ds.length ≤ 15)

/-- The provider-profile phone regex `/^2547\d{8}$/` of src/index.js
line 145: the literal prefix `2547` followed by exactly 8 digits. -/
def providerPhoneTest (s : String) : Bool :=
  match s.toList with
  | '2' :: '5' :: '4' :: '7' :: rest => rest.all Char.isDigit && decide (rest.length = 8)
  | _ => false

/-- The amount-rejection condition of src/server.js line 33:
`amount == null || isNaN(Number(amount)) || Number(amount) <= 0`. -/
def genericAmountErr (amount : JSValue) : Bool :=
  amount = JSValue.jnull || (jsToNumber amount).isNone ||
    decide ((jsToNumber amount).getD 0 ≤ 0)

/-- The phone-rejection condition of src/server.js line 36:
`!phone || !/^\+?\d{7,15}$/.test(String(phone))`.  The phone field is
modelled as an optional string (`none` = absent). -/
def genericPhoneErr : Option String → Bool
  | none => true
  | some p => p = "" || !(genericPhoneTest p)

/-- Outcome of the synchronous part of the `POST /stk_push` handler
(src/index.js lines 132-166): either an early error response (a single
status code and single error string, returned before `getAccessToken` and
`initiateSTKPush` are ever called), or the decision to contact the provider
with the parsed amount and the given phone. -/
inductive StkResult where
  | err : Nat → String → StkResult
  | push : Int → String → StkResult
deriving DecidableEq, Repr

/-- The validation phase of the `POST /stk_push` handler, src/index.js lines
134-166.  `StkResult.push n ph` records that execution reaches line 165
(`getAccessToken` then `initiateSTKPush(accessToken, phone, amountNum)`)
with `amountNum = n`. -/
def stkPush (phone : String) (amount : JSValue) : StkResult :=
  if phone = "" ∨ jsFalsy amount then
    .err 400 "Missing phone or amount"
  else if !(providerPhoneTest phone) then
    .err 400 "Invalid phone format. Use format: 2547XXXXXXXX"
  else
    match jsParseInt amount with
    | none => .err 400 "Invalid amount. Must be between 1 and 150,000"
    | some n =>
        if n ≤ 0 ∨ 150000 < n then
          .err 400 "Invalid amount. Must be between 1 and 150,000"
        else
          .push n phone

/-- The `POST /callback` handler of src/index.js lines 193-218, as a function
of whether the internal processing (logging, stringification) throws:
`(HTTP status, (ResultCode, ResultDesc))`. -/
def callbackHandler (internalThrows : Bool) : Nat × (Int × String) :=
  if internalThrows then
    (500, (1, "Error processing callback"))
  else
    (200, (0, "Callback received successfully"))

/-- An HTTP status in the success range. -/
def isSuccessStatus (n : Nat) : Bool :=
  decide (200 ≤ n) && decide (n < 300)

/-! ### The provider push payload of src/index.js (initiateSTKPush) -/

/-- A UTC instant as JavaScript `Date` objects expose it. -/
structure DateTime where
  year : Nat
  month : Nat
  day : Nat
  hour : Nat
  minute : Nat
  second : Nat
  ms : Nat
deriving DecidableEq, Repr

/-- Two-digit zero padding, as in `Date.prototype.toISOString`. -/
def pad2 (n : Nat) : String :=
  if n < 10 then "0" ++ toString n else toString n

/-- Three-digit zero padding for the milliseconds field. -/
def pad3 (n : Nat) : String :=
  if n < 10 then "00" ++ toString n
  else if n < 100 then "0" ++ toString n
  else toString n

/-- `Date.prototype.toISOString`: `YYYY-MM-DDTHH:MM:SS.mmmZ` (four-digit
years suffice for the dates involved). -/
def toISOString (d : DateTime) : String :=
  toString d.year ++ "-" ++ pad2 d.month ++ "-" ++ pad2 d.day ++ "T" ++
    pad2 d.hour ++ ":" ++ pad2 d.minute ++ ":" ++ pad2 d.second ++ "." ++
    pad3 d.ms ++ "Z"

/-- The timestamp computed at src/index.js line 92:
`new Date().toISOString()` with every `-` and `:` deleted (the global
replace) and truncated at the first `.` (taking element 0 of the split). -/
def darajaTimestamp (d : DateTime) : String :=
  String.mk (((toISOString d).toList.filter
    (fun c => c ≠ '-' ∧ c ≠ ':')).takeWhile (fun c => c ≠ '.'))

/-- The standard base64 alphabet. -/
def base64Alphabet : List Char :=
  "ABCDEFGHIJKLMNOPQRSTUVWXYZabcdefghijklmnopqrstuvwxyz0123456789+/".toList

/-- Character at a 6-bit index of the base64 alphabet. -/
def b64Char (n : Nat) : Char := base64Alphabet.getD n 'A'

/-- Base64 encoding of a byte list, with `=` padding. -/
def base64EncodeBytes : List Nat → String
  | [] => ""
  | [a] =>
      String.mk [b64Char (a / 4), b64Char (a % 4 * 16)] ++ "=="
  | [a, b] =>
      String.mk [b64Char (a / 4), b64Char (a % 4 * 16 + b / 16),
        b64Char (b % 16 * 4)] ++ "="
  | a :: b :: c :: rest =>
      String.mk [b64Char (a / 4), b64Char (a % 4 * 16 + b / 16),
        b64Char (b % 16 * 4 + c / 64), b64Char (c % 64)] ++
        base64EncodeBytes rest

/-- `Buffer.from(s).toString` with base64 output for the ASCII strings used here
(UTF-8 bytes coincide with code points). -/
def base64Encode (s : String) : String :=
  base64EncodeBytes (s.toList.map Char.toNat)

/-- The JSON payload built by `initiateSTKPush` (src/index.js lines 95-107). -/
structure StkPayload where
  BusinessShortCode : String
  Password : String
  Timestamp : String
  TransactionType : String
  Amount : Int
  PartyA : String
  PartyB : String
  PhoneNumber : String
  CallBackURL : String
  AccountReference : String
  TransactionDesc : String
deriving DecidableEq, Repr

/-- `initiateSTKPush` up to the remote POST (src/index.js lines 90-107): the
payload it submits, parameterised by the configuration strings, the current
time, and the validated phone and parsed amount. -/
def stkPushPayload (shortcode passkey callbackURL accountRef : String)
    (d : DateTime) (phone : String) (amount : Int) : StkPayload :=
  let timestamp := darajaTimestamp d
  let password := base64Encode (shortcode ++ passkey ++ timestamp)
  { BusinessShortCode := shortcode
    Password := password
    Timestamp := timestamp
    TransactionType := "CustomerBuyGoodsOnline"
    Amount := amount
    PartyA := phone
    PartyB := shortcode
    PhoneNumber := phone
    CallBackURL := callbackURL
    AccountReference := accountRef
    TransactionDesc := "HELB Disbursement" }

/-! ### The in-memory payment store of src/server.js -/

/-- A transaction record of src/server.js lines 43-50.  `completedAt = none`
models the field being absent before the completion timer fires. -/
structure PaymentRecord where
  id : String
  amount : ℚ
  phone : String
  reference : String
  status : String
  createdAt : String
  completedAt : Option String
deriving DecidableEq, Repr

/-- The `payments` map (src/server.js line 22), as an association list whose
lookup agrees with `Map.get`. -/
abbrev Store := List (String × PaymentRecord)

/-- `payments.get(id)`. -/
def storeGet (s : Store) (id : String) : Option PaymentRecord :=
  List.lookup id s

/-- `payments.set(id, r)`: replaces any binding of `id`. -/
def storeSet (s : Store) (id : String) (r : PaymentRecord) : Store :=
  (id, r) :: List.filter (fun p => p.1 ≠ id) s

/-- The ids present in the store. -/
def storeIds (s : Store) : List String := s.map Prod.fst

/-- Response of the `POST /api/pay` handler. -/
inductive PayResult where
  | invalid : Nat → List String → PayResult
  | ok : PaymentRecord → PayResult
deriving DecidableEq, Repr

/-- The `POST /api/pay` handler, src/server.js lines 28-63, up to sending the
response.  The random id, the clock reading and the default reference label
(`REF-${Date.now()}`) are explicit parameters.  Returns the response together
with the store after the synchronous part of the handler (the `setTimeout`
body is modelled separately by `completeTimer`). -/
def apiPay (s : Store) (amount : JSValue) (phone : Option String)
    (reference : Option String) (newId now defaultRef : String) :
    PayResult × Store :=
  let errors :=
    (if genericAmountErr amount then ["Amount must be a positive number."] else []) ++
    (if genericPhoneErr phone then
      ["Phone must be digits, optionally starting with +, length 7–15."] else [])
  if errors ≠ [] then
    (.invalid 400 errors, s)
  else
    let record : PaymentRecord :=
      { id := newId
        amount := (jsToNumber amount).getD 0
        phone := (phone.getD "")
        reference := reference.getD defaultRef
        status := "PENDING"
        createdAt := now
        completedAt := none }
    (.ok record, storeSet s newId record)

/-- The `setTimeout` completion callback of src/server.js lines 54-60: looks
the record up again and, when present, marks it SUCCESS with a completion
time. -/
def completeTimer (s : Store) (id : String) (now : String) : Store :=
  match storeGet s id with
  | none => s
  | some r =>
      storeSet s id { r with status := "SUCCESS", completedAt := some now }

/-- Response of the `GET /api/status/:id` handler. -/
inductive StatusResult where
  | notFound : Nat → String → StatusResult
  | found : PaymentRecord → StatusResult
deriving DecidableEq, Repr

/-- The `GET /api/status/:id` handler, src/server.js lines 69-74.  It returns
the store unchanged: the handler only reads. -/
def getStatus (s : Store) (id : String) : StatusResult × Store :=
  match storeGet s id with
  | none => (.notFound 404 "Not found", s)
  | some r => (.found r, s)

/-- The record invariant of spec section 3: `completedAt` is present exactly
when the status is terminal. -/
def recordInv (r : PaymentRecord) : Prop :=
  r.completedAt.isSome = true ↔ (r.status = "SUCCESS" ∨ r.status = "FAILED")

/-- Every record in the store satisfies `recordInv`. -/
def storeInv (s : Store) : Prop :=
  ∀ p ∈ s, recordInv p.2

/-! ### Helper lemmas -/

theorem storeGet_storeSet_self (s : Store) (id : String) (r : PaymentRecord) :
    storeGet (storeSet s id r) id = some r := by
  simp [storeGet, storeSet, List.lookup]

theorem storeInv_storeSet {s : Store} {id : String} {r : PaymentRecord}
    (hs : storeInv s) (hr : recordInv r) : storeInv (storeSet s id r) := by
  intro p hp
  rcases List.mem_cons.mp hp with h | h
  · rw [h]; exact hr
  · exact hs p (List.mem_of_mem_filter h)

theorem stkPush_push_elim {ph p : String} {a : JSValue} {n : Int}
    (h : stkPush ph a = .push n p) :
    p = ph ∧ ph ≠ "" ∧ jsFalsy a = false ∧ providerPhoneTest ph = true ∧
      jsParseInt a = some n ∧ 0 < n ∧ n ≤ 150000 := by
  unfold stkPush at h
  split_ifs at h with h1 h2
  rcases hm : jsParseInt a with _ | m
  · rw [hm] at h; exact absurd h (by simp)
  · rw [hm] at h
    simp only at h
    split_ifs at h with h3
    all_goals simp only [StkResult.push.injEq, reduceCtorEq] at h
    obtain ⟨rfl, rfl⟩ := h
    push_neg at h1 h3
    exact ⟨rfl, h1.1, Bool.eq_false_iff.mpr h1.2, by simpa using h2, rfl,
      h3.1, h3.2⟩

theorem getStatus_snd (s : Store) (id : String) : (getStatus s id).2 = s := by
  unfold getStatus
  rcases storeGet s id with _ | r <;> rfl

theorem apiPay_ok_elim {s : Store} {amount : JSValue} {phone ref : Option String}
    {id now dref : String} {r : PaymentRecord}
    (hok : (apiPay s amount phone ref id now dref).1 = .ok r) :
    genericAmountErr amount = false ∧ genericPhoneErr phone = false ∧
      r = ⟨id, (jsToNumber amount).getD 0, phone.getD "", ref.getD dref,
        "PENDING", now, none⟩ ∧
      (apiPay s amount phone ref id now dref).2 = storeSet s id r := by
  by_cases ha : genericAmountErr amount = true
  · exact absurd hok
      (by by_cases hp : genericPhoneErr phone = true <;> simp [apiPay, ha, hp])
  · by_cases hp : genericPhoneErr phone = true
    · exact absurd hok (by simp [apiPay, ha, hp])
    · have ha2 : genericAmountErr amount = false := Bool.eq_false_iff.mpr ha
      have hp2 : genericPhoneErr phone = false := Bool.eq_false_iff.mpr hp
      have hpay : apiPay s amount phone ref id now dref =
          (.ok ⟨id, (jsToNumber amount).getD 0, phone.getD "", ref.getD dref,
            "PENDING", now, none⟩,
           storeSet s id ⟨id, (jsToNumber amount).getD 0, phone.getD "",
            ref.getD dref, "PENDING", now, none⟩) := by
        simp [apiPay, ha2, hp2]
      rw [hpay] at hok
      simp only [PayResult.ok.injEq] at hok
      subst hok
      exact ⟨ha2, hp2, rfl, by rw [hpay]⟩

/-! ### Claim theorems -/

/-- C1 (counterexample): when internal processing throws, the callback
handler of src/index.js responds with HTTP status 500, a non-success status,
so the claim that the HTTP-equivalent status is never an error status is
false. -/
theorem callback_error_status_counterexample :
    (callbackHandler true).1 = 500 ∧ isSuccessStatus 500 = false := by
  exact ⟨rfl, rfl⟩

/-- C1 (amended): the callback handler always responds with the fixed
structured body — ResultCode 0 / "Callback received successfully" on success
and ResultCode 1 / "Error processing callback" on internal failure — but the
HTTP status is 200 on success and 500 (an error status) on internal
failure. -/
theorem callback_structured_body (e : Bool) :
    (callbackHandler e).2 =
      (if e then ((1 : Int), "Error processing callback")
       else ((0 : Int), "Callback received successfully")) ∧
    (callbackHandler e).1 = (if e then 500 else 200) := by
  cases e <;> exact ⟨rfl, rfl⟩

/-- C2 (code bug): the push payload does send the same timestamp string in
the Timestamp field as is folded into the base64 Password, but that string
is not the 14-character digits-only `YYYYMMDDHHMMSS`: the code
that strips `-` and `:` from the ISO string and truncates at the first
`.` keeps the `T` separator,
producing a 15-character string such as `20261011T233600`. -/
theorem stk_timestamp_format_bug :
    (∀ (sc pk cb ar : String) (d : DateTime) (ph : String) (a : Int),
      (stkPushPayload sc pk cb ar d ph a).Password =
          base64Encode (sc ++ pk ++ darajaTimestamp d) ∧
        (stkPushPayload sc pk cb ar d ph a).Timestamp = darajaTimestamp d) ∧
    darajaTimestamp ⟨2026, 10, 11, 23, 36, 0, 123⟩ = "20261011T233600" ∧
    (darajaTimestamp ⟨2026, 10, 11, 23, 36, 0, 123⟩).length = 15 ∧
    ((darajaTimestamp ⟨2026, 10, 11, 23, 36, 0, 123⟩).toList.all
      Char.isDigit) = false := by
  exact ⟨fun sc pk cb ar d ph a => ⟨rfl, rfl⟩, by decide, by decide, by decide⟩

/-- C3 (counterexample): on an input whose phone and amount are both invalid
for the provider profile ("abc" is not a valid phone, "xyz" parses to NaN),
the `/stk_push` handler reports only the phone violation as a single error
string, not a structured list of all violated rules. -/
theorem stk_reports_only_first_violation :
    providerPhoneTest "abc" = false ∧
    jsParseInt (JSValue.jstr "xyz") = none ∧
    stkPush "abc" (.jstr "xyz") =
      .err 400 "Invalid phone format. Use format: 2547XXXXXXXX" := by
  exact ⟨by decide, by decide, by decide⟩

/-- C3 (amended): the generic profile (`/api/pay`) collects all violated
rules into one structured list — on an input violating both the amount and
the phone rule the single rejection carries both messages — while the
provider profile (`/stk_push`) checks rules sequentially and reports only the
first violated rule as a single error string. -/
theorem validation_all_vs_first (s : Store) (amount : JSValue)
    (phone : Option String) (ref : Option String) (id now dref : String)
    (ha : genericAmountErr amount = true) (hp : genericPhoneErr phone = true) :
    (apiPay s amount phone ref id now dref).1 =
      .invalid 400 ["Amount must be a positive number.",
        "Phone must be digits, optionally starting with +, length 7–15."] ∧
    (∀ (ph : String) (a : JSValue), ph ≠ "" → jsFalsy a = false →
      providerPhoneTest ph = false →
      stkPush ph a = .err 400 "Invalid phone format. Use format: 2547XXXXXXXX") := by
  constructor
  · simp [apiPay, ha, hp]
  · intro ph a hph hfa hpt
    unfold stkPush
    rw [if_neg (by simp [hph, hfa]), if_pos (by simp [hpt])]

/-- C3 witness. -/
theorem validation_all_vs_first_witness :
    (apiPay [] (.jstr "abc") (some "07") none "id1" "t0" "r").1 =
      .invalid 400 ["Amount must be a positive number.",
        "Phone must be digits, optionally starting with +, length 7–15."] :=
  (validation_all_vs_first [] (.jstr "abc") (some "07") none "id1" "t0" "r"
    (by decide) (by decide)).1

/-- C4: on a valid input (the amount check and the phone check both pass)
and a generated id that was not previously issued, `/api/pay` returns
`{ok: true, payment: record}` with `record.status = "PENDING"`,
`record.id` the fresh id, no completion time, and the record is immediately
visible to `getStatus` in the resulting store. -/
theorem initiate_valid_pending_fresh (s : Store) (amount : JSValue)
    (phone : Option String) (ref : Option String) (id now dref : String)
    (hid : storeGet s id = none)
    (ha : genericAmountErr amount = false) (hp : genericPhoneErr phone = false) :
    ∃ r, (apiPay s amount phone ref id now dref).1 = .ok r ∧
      r.status = "PENDING" ∧ r.id = id ∧ storeGet s r.id = none ∧
      r.completedAt = none ∧
      getStatus (apiPay s amount phone ref id now dref).2 id =
        (.found r, (apiPay s amount phone ref id now dref).2) := by
  refine ⟨⟨id, (jsToNumber amount).getD 0, phone.getD "", ref.getD dref,
    "PENDING", now, none⟩, ?_⟩
  have hpay : apiPay s amount phone ref id now dref =
      (.ok ⟨id, (jsToNumber amount).getD 0, phone.getD "", ref.getD dref,
        "PENDING", now, none⟩,
       storeSet s id ⟨id, (jsToNumber amount).getD 0, phone.getD "",
        ref.getD dref, "PENDING", now, none⟩) := by
    simp [apiPay, ha, hp]
  rw [hpay]
  refine ⟨rfl, rfl, rfl, hid, rfl, ?_⟩
  unfold getStatus
  rw [storeGet_storeSet_self]

/-- C4 witness. -/
theorem initiate_valid_pending_fresh_witness :
    ∃ r, (apiPay [] (.jnum 100) (some "+254712345678") none "id1" "t0" "r").1 =
        .ok r ∧
      r.status = "PENDING" ∧ r.id = "id1" ∧ storeGet [] r.id = none ∧
      r.completedAt = none ∧
      getStatus (apiPay [] (.jnum 100) (some "+254712345678") none
          "id1" "t0" "r").2 "id1" =
        (.found r, (apiPay [] (.jnum 100) (some "+254712345678") none
          "id1" "t0" "r").2) :=
  initiate_valid_pending_fresh [] (.jnum 100) (some "+254712345678") none
    "id1" "t0" "r" rfl (by decide) (by decide)

/-- C5: the completedAt-iff-terminal invariant is preserved by every
operation — record creation stores a PENDING record with no completedAt, the
demo timer completion marks the looked-up record SUCCESS with completedAt
set, and lookups change nothing — and after the timer fires the record reads
back as SUCCESS with completedAt set. -/
theorem completedAt_iff_terminal (s : Store) (id now : String)
    (h : storeInv s) :
    storeInv (completeTimer s id now) ∧
    (∀ r, storeGet s id = some r →
      storeGet (completeTimer s id now) id =
        some { r with status := "SUCCESS", completedAt := some now }) ∧
    (∀ amount phone ref nid nnow dref r,
      (apiPay s amount phone ref nid nnow dref).1 = .ok r →
        r.status = "PENDING" ∧ r.completedAt = none ∧
        storeInv (apiPay s amount phone ref nid nnow dref).2) ∧
    (getStatus s id).2 = s := by
  refine ⟨?_, ?_, ?_, getStatus_snd s id⟩
  · unfold completeTimer
    rcases hm : storeGet s id with _ | r
    · exact h
    · exact storeInv_storeSet h (by simp [recordInv])
  · intro r hm
    unfold completeTimer
    rw [hm, storeGet_storeSet_self]
  · intro amount phone ref nid nnow dref r hok
    obtain ⟨ha, hp, hr, hsnd⟩ := apiPay_ok_elim hok
    subst hr
    refine ⟨rfl, rfl, ?_⟩
    rw [hsnd]
    exact storeInv_storeSet h (by simp [recordInv])

/-- C5 witness. -/
theorem completedAt_iff_terminal_witness :
    storeInv (completeTimer [] "x" "t") :=
  (completedAt_iff_terminal [] "x" "t"
    (fun p hp => absurd hp (List.not_mem_nil p))).1

/-- C6: on any input rejected by the validation of `/api/pay` the handler
returns a 400 structured rejection and leaves the store exactly as it was
(no record created), and the `/stk_push` handler reaches the provider-contact
step (token acquisition followed by push submission) only on inputs that
pass every validation rule, so no invalid input ever contacts the
provider. -/
theorem invalid_input_no_record_no_provider (s : Store) (amount : JSValue)
    (phone : Option String) (ref : Option String) (id now dref : String)
    (h : genericAmountErr amount = true ∨ genericPhoneErr phone = true) :
    (∃ errs, (apiPay s amount phone ref id now dref).1 = .invalid 400 errs ∧
      0 < errs.length) ∧
    (apiPay s amount phone ref id now dref).2 = s ∧
    (∀ (ph p : String) (a : JSValue) (n : Int),
      stkPush ph a = .push n p →
        ph ≠ "" ∧ jsFalsy a = false ∧ providerPhoneTest ph = true ∧
        jsParseInt a = some n ∧ 0 < n ∧ n ≤ 150000) := by
  have herr : (if genericAmountErr amount then
        ["Amount must be a positive number."] else []) ++
      (if genericPhoneErr phone then
        ["Phone must be digits, optionally starting with +, length 7–15."]
       else []) ≠ [] := by
    rcases h with h | h <;> simp [h]
  constructor
  · refine ⟨(if genericAmountErr amount = true then ["Amount must be a positive number."] else []) ++ (if genericPhoneErr phone = true then ["Phone must be digits, optionally starting with +, length 7–15."] else []), ?_, ?_⟩
    · simp only [apiPay]
      rw [if_pos herr]
    · rcases h with h | h <;> simp [h]
  constructor
  · simp only [apiPay]
    rw [if_pos herr]
  · intro ph p a n hpush
    obtain ⟨_, h1, h2, h3, h4, h5, h6⟩ := stkPush_push_elim hpush
    exact ⟨h1, h2, h3, h4, h5, h6⟩

/-- C6 witness. -/
theorem invalid_input_no_record_no_provider_witness :
    (∃ errs, (apiPay [] (.jnum 0) (some "+254712345678") none
        "id1" "t0" "r").1 = .invalid 400 errs ∧ 0 < errs.length) ∧
    (apiPay [] (.jnum 0) (some "+254712345678") none "id1" "t0" "r").2 =
      ([] : Store) :=
  let h := invalid_input_no_record_no_provider [] (.jnum 0)
    (some "+254712345678") none "id1" "t0" "r" (Or.inl (by decide))
  ⟨h.1, h.2.1⟩

/-- C7: `getStatus` returns the 404-equivalent NotFound response exactly on
ids absent from the store, returns the stored record unchanged on ids that
are present, and never modifies the store. -/
theorem getStatus_contract (s : Store) (id : String) :
    (storeGet s id = none → (getStatus s id).1 = .notFound 404 "Not found") ∧
    (∀ r, storeGet s id = some r → (getStatus s id).1 = .found r) ∧
    (getStatus s id).2 = s := by
  refine ⟨?_, ?_, getStatus_snd s id⟩
  · intro hm
    unfold getStatus
    rw [hm]
  · intro r hm
    unfold getStatus
    rw [hm]

/-- C7 witness. -/
theorem getStatus_contract_witness :
    (getStatus [] "x").1 = .notFound 404 "Not found" :=
  (getStatus_contract [] "x").1 rfl

/-- C8: phone validation on the examples of the spec — the generic profile
(`/^\+?\d{7,15}$/`) accepts `+254712345678` and `254712345678`, while the
provider profile (`/^2547\d{8}$/`) accepts `254712345678` and rejects both
`071234567` and `+254712345678`. -/
theorem phone_validation_profiles :
    genericPhoneTest "+254712345678" = true ∧
    genericPhoneTest "254712345678" = true ∧
    providerPhoneTest "254712345678" = true ∧
    providerPhoneTest "071234567" = false ∧
    providerPhoneTest "+254712345678" = false := by
  exact ⟨by decide, by decide, by decide, by decide, by decide⟩

/-- C9: amount validation on the examples of the spec — under the provider profile
the handler rejects amount 0 (caught by the falsy missing-field check),
-5, "abc" and 150001 with a 400 response and accepts 150000; under the
generic profile 150001 passes the amount check (no upper bound), every
strictly positive number passes, and 0 fails. -/
theorem amount_validation_profiles :
    stkPush "254712345678" (.jnum 0) = .err 400 "Missing phone or amount" ∧
    stkPush "254712345678" (.jnum (-5)) =
      .err 400 "Invalid amount. Must be between 1 and 150,000" ∧
    stkPush "254712345678" (.jstr "abc") =
      .err 400 "Invalid amount. Must be between 1 and 150,000" ∧
    stkPush "254712345678" (.jnum 150001) =
      .err 400 "Invalid amount. Must be between 1 and 150,000" ∧
    stkPush "254712345678" (.jnum 150000) = .push 150000 "254712345678" ∧
    genericAmountErr (.jnum 150001) = false ∧
    (∀ q : ℚ, 0 < q → genericAmountErr (.jnum q) = false) ∧
    genericAmountErr (.jnum 0) = true := by
  refine ⟨by decide, by decide, by decide, by decide, by decide, by decide,
    ?_, by decide⟩
  intro q hq
  simpa [genericAmountErr, jsToNumber] using hq

/-- C9 witness. -/
theorem amount_validation_profiles_witness :
    genericAmountErr (.jnum 150001) = false :=
  amount_validation_profiles.2.2.2.2.2.2.1 150001 (by norm_num)

/-- C10: under the provider profile, `parseInt` truncation makes
`/stk_push` accept the non-integer string "100.99" (forwarding amount 100)
and the trailing-garbage string "12abc" (forwarding amount 12); in general
the amount forwarded to the provider is exactly the parsed integer, and the
payload built by `initiateSTKPush` carries that integer in its Amount
field. -/
theorem truncated_amount_forwarded :
    stkPush "254712345678" (.jstr "100.99") = .push 100 "254712345678" ∧
    stkPush "254712345678" (.jstr "12abc") = .push 12 "254712345678" ∧
    (∀ (ph p : String) (a : JSValue) (n : Int), stkPush ph a = .push n p →
      jsParseInt a = some n ∧ 0 < n ∧ n ≤ 150000) ∧
    (∀ (sc pk cb ar : String) (d : DateTime) (ph : String) (n : Int),
      (stkPushPayload sc pk cb ar d ph n).Amount = n) := by
  refine ⟨by decide, by decide, ?_, fun sc pk cb ar d ph n => rfl⟩
  intro ph p a n hpush
  obtain ⟨_, _, _, _, h4, h5, h6⟩ := stkPush_push_elim hpush
  exact ⟨h4, h5, h6⟩

/-- C10 witness. -/
theorem truncated_amount_forwarded_witness :
    jsParseInt (.jstr "100.99") = some 100 ∧ (0 : Int) < 100 ∧
      (100 : Int) ≤ 150000 :=
  truncated_amount_forwarded.2.2.1 "254712345678" "254712345678"
    (.jstr "100.99") 100 (by decide)

end Daraja
